import Mathlib

/-!
Verification of the evaluation-score module (`app-server/src/ch/evaluation_scores.rs`).

Shallow embedding conventions:
* `Uuid` is an abstract identifier, modelled as `Nat` (only equality is used).
* Rust `f64` score values and histogram bounds are modelled as `Rat`.  Every
  property proved here concerns comparisons, field plumbing and control flow,
  none of which depend on rounding; for `bucket_count = 0` the Rust code
  computes an IEEE infinity where `Rat` division by zero yields `0` — in both
  languages the division is non-failing, which is all the claims depend on.
* The ClickHouse client is modelled as an oracle: each read operation takes a
  `resp` function from the built query to the store's response, and returns
  the list of queries it actually issued next to its result.  The inserter
  takes the outcomes of the open / per-row write / finalize calls and returns
  the trace of store effects next to its result.
* Rust `Vec` indexing `rows[0]` is modelled by pattern matching, with the
  out-of-bounds panic made explicit as a `panic` outcome.
-/

namespace EvalScores

/-- Identifier type for `uuid::Uuid`; only equality on it is used. -/
abbrev Uuid := Nat

/-- Model of Rust `f64` score values (see the module docstring). -/
abbrev Value := Rat

/-- Model of `DateTime<Utc>` timestamps (nanoseconds since epoch). -/
abbrev Timestamp := Int

/-- The `EvaluationScore` row struct (source lines 19-34). -/
structure EvaluationScore where
  project_id : Uuid
  group_id : String
  evaluation_id : Uuid
  result_id : Uuid
  name : String
  value : Value
  timestamp : Timestamp
  deriving DecidableEq

/-- Modelled from the spec: `EvaluationDatapointResult` is defined in
`crate::evaluations::utils`, outside the given sources.  Per the spec it
exposes a mapping from metric name to numeric value ("each exposing a mapping
from metric name to numeric value"); the mapping is modelled as an association
list of (name, value) entries. -/
structure EvaluationDatapointResult where
  scores : List (String × Value)
  deriving DecidableEq

/-- `EvaluationScore::from_evaluation_datapoint_results` (source lines 37-67):
`points.iter().zip(result_ids.iter()).flat_map(|(point, result_id)| point.scores.iter().map(...)).collect()`. -/
def from_evaluation_datapoint_results (points : List EvaluationDatapointResult)
    (result_ids : List Uuid) (project_id : Uuid) (group_id : String)
    (evaluation_id : Uuid) (timestamp : Timestamp) : List EvaluationScore :=
  (points.zip result_ids).flatMap fun pr =>
    pr.1.scores.map fun nv =>
      { project_id := project_id
        group_id := group_id
        evaluation_id := evaluation_id
        result_id := pr.2
        name := nv.1
        value := nv.2
        timestamp := timestamp }

/-- The block of rows produced from one (point, result_id) pair; the body is
exactly the inner `map` of `from_evaluation_datapoint_results`. -/
def scoresOfPair (project_id : Uuid) (group_id : String) (evaluation_id : Uuid)
    (timestamp : Timestamp) (pr : EvaluationDatapointResult × Uuid) : List EvaluationScore :=
  pr.1.scores.map fun nv =>
    { project_id := project_id
      group_id := group_id
      evaluation_id := evaluation_id
      result_id := pr.2
      name := nv.1
      value := nv.2
      timestamp := timestamp }

theorem from_results_eq_flatMap (points : List EvaluationDatapointResult)
    (result_ids : List Uuid) (project_id : Uuid) (group_id : String)
    (evaluation_id : Uuid) (timestamp : Timestamp) :
    from_evaluation_datapoint_results points result_ids project_id group_id evaluation_id timestamp
      = (points.zip result_ids).flatMap (scoresOfPair project_id group_id evaluation_id timestamp) := rfl

/-- True on characters that are unsafe to splice into a textual query:
quote characters, the statement separator and the backtick quote. -/
def isForbiddenQueryChar (c : Char) : Bool :=
  c.toNat == 39 || c.toNat == 34 || c.toNat == 59 || c.toNat == 96

/-- True when the character list contains the two-character sequence
`c₁ c₂` (used for the comment markers `--` and `/*`). -/
def containsSeq2 (c₁ c₂ : Char) : List Char → Bool
  | [] => false
  | [_] => false
  | a :: b :: rest => (a == c₁ && b == c₂) || containsSeq2 c₁ c₂ (b :: rest)

/-- Modelled from the spec: `validate_string_against_injection` lives in
`super::utils`, outside the given sources.  Per the spec it "rejects any
string containing characters or sequences unsafe to splice unescaped into a
textual query (quote characters, statement separators, comment markers)" and
"accepts alphanumeric/underscore/hyphen names".  Character codes 39, 34, 96
are the quote characters, 59 the statement separator, and the sequences
45 45 and 47 42 are the comment markers. -/
def validate_string_against_injection (s : String) : Except String Unit :=
  if s.toList.any isForbiddenQueryChar
      || containsSeq2 (Char.ofNat 45) (Char.ofNat 45) s.toList
      || containsSeq2 (Char.ofNat 47) (Char.ofNat 42) s.toList then
    .error "potential SQL injection"
  else
    .ok ()

/-! ### Inserter (source lines 70-100) -/

/-- One observable interaction of `insert_evaluation_scores` with the store:
calling `clickhouse.insert(..)`, calling `ch_insert.write(&row)`, or calling
`ch_insert.end()`. -/
inductive WriteEffect where
  | openScope
  | writeRow (row : EvaluationScore)
  | finalize
  deriving DecidableEq

/-- The error of `insert_evaluation_scores`, keeping the three distinct error
paths of the source: the wrapped open-scope failure (line 94), the raw
propagated row-write failure (line 82), and the wrapped finalize failure
(line 87). -/
inductive InsertError where
  | openFailed (msg : String)
  | writeFailed (msg : String)
  | endFailed (msg : String)
  deriving DecidableEq

/-- The row-writing loop of `insert_evaluation_scores` (lines 81-83):
`writeR k` is the store's outcome for the k-th `write` call.  Returns the
write effects actually issued (in order) and the first error, if any. -/
def writeLoop (rows : List EvaluationScore) (writeR : Nat → Except String Unit)
    (k : Nat) : List WriteEffect × Option String :=
  match rows with
  | [] => ([], none)
  | r :: rest =>
    match writeR k with
    | .error e => ([.writeRow r], some e)
    | .ok () =>
      let res := writeLoop rest writeR (k + 1)
      (.writeRow r :: res.1, res.2)

/-- `insert_evaluation_scores` (source lines 70-100), with the store client
modelled by the outcomes `openR` (of `clickhouse.insert`), `writeR k` (of the
k-th `write`) and `endR` (of `end`).  Returns the trace of issued store
effects together with the Rust function's result. -/
def insert_evaluation_scores (scores : List EvaluationScore)
    (openR : Except String Unit) (writeR : Nat → Except String Unit)
    (endR : Except String Unit) : List WriteEffect × Except InsertError Unit :=
  if scores.isEmpty then ([], .ok ())
  else
    match openR with
    | .error e =>
      ([.openScope], .error (.openFailed ("Failed to insert evaluation scores into Clickhouse: " ++ e)))
    | .ok () =>
      let res := writeLoop scores writeR 0
      match res.2 with
      | some e => (.openScope :: res.1, .error (.writeFailed e))
      | none =>
        match endR with
        | .error e =>
          ((.openScope :: res.1) ++ [.finalize],
            .error (.endFailed ("Clickhouse evaluation scores insertion failed: " ++ e)))
        | .ok () => ((.openScope :: res.1) ++ [.finalize], .ok ())

/-! ### Average query (source lines 102-125) -/

/-- The data that `get_average_evaluation_score` splices into its query text
(template at source lines 115-121). -/
structure AvgQuery where
  project_id : Uuid
  evaluation_id : Uuid
  name : String
  deriving DecidableEq

/-- The `AverageEvaluationScore` result-row struct (source lines 102-105). -/
structure AverageEvaluationScore where
  average_value : Value
  deriving DecidableEq

/-- Outcome of `get_average_evaluation_score`.  The Rust return type is
`Result<f64>`; `panic` makes the out-of-bounds `rows[0]` on an empty result
set explicit.  There is no no-data constructor because the source has none. -/
inductive AvgResult where
  | ok (v : Value)
  | invalidInput (e : String)
  | queryError (e : String)
  | panic
  deriving DecidableEq

/-- `get_average_evaluation_score` (source lines 107-125): validate the name,
build the query, execute it via the store oracle `resp`, and return
`rows[0].average_value` (line 124).  The first component is the list of
queries actually issued to the store. -/
def get_average_evaluation_score (project_id evaluation_id : Uuid) (name : String)
    (resp : AvgQuery → Except String (List AverageEvaluationScore)) :
    List AvgQuery × AvgResult :=
  match validate_string_against_injection name with
  | .error e => ([], .invalidInput e)
  | .ok () =>
    let query : AvgQuery := ⟨project_id, evaluation_id, name⟩
    match resp query with
    | .error e => ([query], .queryError e)
    | .ok rows =>
      match rows with
      | [] => ([query], .panic)
      | r :: _ => ([query], .ok r.average_value)

/-! ### Histogram query (source lines 127-186) -/

/-- The `EvaluationScoreBucket` result-row struct (source lines 127-132). -/
structure EvaluationScoreBucket where
  lower_bound : Value
  upper_bound : Value
  height : Nat
  deriving DecidableEq

/-- The data that `get_evaluation_score_buckets_based_on_bounds` splices into
its query text (template at source lines 152-181): the generated interval
numbers plus the five spliced numeric constants and the three filters. -/
structure HistogramQuery where
  interval_nums : List Nat
  lower_bound : Value
  step_size : Value
  upper_bound : Value
  bucket_count : Nat
  project_id : Uuid
  evaluation_id : Uuid
  name : String
  deriving DecidableEq

/-- Outcome of `get_evaluation_score_buckets_based_on_bounds`; the Rust
function returns the deserialized rows unchanged (line 185). -/
inductive HistResult where
  | ok (rows : List EvaluationScoreBucket)
  | invalidInput (e : String)
  | queryError (e : String)
  deriving DecidableEq

/-- `get_evaluation_score_buckets_based_on_bounds` (source lines 134-186):
validate the name, compute `step_size = (upper_bound - lower_bound) /
bucket_count` (line 145), generate `interval_nums = 1..=bucket_count`
(lines 146-149), issue the query and return its rows unchanged. -/
def get_evaluation_score_buckets_based_on_bounds (project_id evaluation_id : Uuid)
    (name : String) (lower_bound upper_bound : Value) (bucket_count : Nat)
    (resp : HistogramQuery → Except String (List EvaluationScoreBucket)) :
    List HistogramQuery × HistResult :=
  match validate_string_against_injection name with
  | .error e => ([], .invalidInput e)
  | .ok () =>
    let step_size := (upper_bound - lower_bound) / (bucket_count : Value)
    let interval_nums := (List.range bucket_count).map (fun k => k + 1)
    let query : HistogramQuery :=
      ⟨interval_nums, lower_bound, step_size, upper_bound, bucket_count,
        project_id, evaluation_id, name⟩
    match resp query with
    | .error e => ([query], .queryError e)
    | .ok rows => ([query], .ok rows)

/-- Lower bound of interval `i` in the generated query: the SQL expression
`lower_bound + ((interval_num - 1) * step_size)` (source line 157). -/
def intervalLowerBound (q : HistogramQuery) (i : Nat) : Value :=
  q.lower_bound + ((i : Value) - 1) * q.step_size

/-- Upper bound of interval `i` in the generated query: the SQL `CASE WHEN
interval_num = bucket_count THEN upper_bound ELSE lower_bound + interval_num *
step_size END` (source lines 158-161). -/
def intervalUpperBound (q : HistogramQuery) (i : Nat) : Value :=
  if i = q.bucket_count then q.upper_bound
  else q.lower_bound + (i : Value) * q.step_size

/-- Whether a row value is counted into interval `i` by the `COUNT(CASE ...)`
expression of the generated query (source lines 166-172): counted when
`lower_bound <= value < upper_bound`, or when `i` is the final interval and
`lower_bound <= value <= upper_bound`. -/
def histogramCaseCounts (q : HistogramQuery) (i : Nat) (v : Value) : Prop :=
  (intervalLowerBound q i ≤ v ∧ v < intervalUpperBound q i)
    ∨ (i = q.bucket_count ∧ intervalLowerBound q i ≤ v ∧ v ≤ intervalUpperBound q i)

instance histogramCaseCountsDecidable (q : HistogramQuery) (i : Nat) (v : Value) :
    Decidable (histogramCaseCounts q i v) := by
  unfold histogramCaseCounts
  infer_instance

/-- The row filter of the generated query (source lines 175-177). -/
def matchesHistogramFilter (q : HistogramQuery) (r : EvaluationScore) : Bool :=
  decide (r.project_id = q.project_id) && decide (r.evaluation_id = q.evaluation_id)
    && decide (r.name = q.name)

/-- ClickHouse semantics of the generated histogram query over a table of
`evaluation_scores` rows.  The query is `FROM evaluation_scores JOIN intervals
ON 1 = 1 WHERE <filters> GROUP BY <interval> ORDER BY interval_num` (source
lines 173-179): an inner (cross) join, so when zero table rows pass the filter
the join is empty and `GROUP BY` yields no groups at all — the result is
empty.  When at least one row matches, every interval appears in the join and
forms its own group (interval numbers are distinct), whose height is the
conditional count over the matching rows; `ORDER BY interval_num` lists the
groups in interval order. -/
def runHistogramQuery (q : HistogramQuery) (table : List EvaluationScore) :
    List EvaluationScoreBucket :=
  if (table.filter (matchesHistogramFilter q)).isEmpty then []
  else
    q.interval_nums.map fun i =>
      { lower_bound := intervalLowerBound q i
        upper_bound := intervalUpperBound q i
        height := (table.filter (matchesHistogramFilter q)).countP
            (fun r => decide (histogramCaseCounts q i r.value)) }

/-! ### Bounds query (source lines 188-219) -/

/-- The `ComparedEvaluationScoresBounds` result-row struct (source lines
188-191). -/
structure ComparedEvaluationScoresBounds where
  upper_bound : Value
  deriving DecidableEq

/-- The data that `get_global_evaluation_scores_bounds` splices into its query
text (template at source lines 207-215); `evaluation_ids` is spliced as a
comma-joined `IN (...)` list, with no special case for the empty list. -/
structure BoundsQuery where
  project_id : Uuid
  evaluation_ids : List Uuid
  name : String
  deriving DecidableEq

/-- Outcome of `get_global_evaluation_scores_bounds`; as for the average
query, `panic` is the explicit out-of-bounds `rows[0]` (source line 218) and
there is no no-data constructor because the source has none. -/
inductive BoundsResult where
  | ok (b : ComparedEvaluationScoresBounds)
  | invalidInput (e : String)
  | queryError (e : String)
  | panic
  deriving DecidableEq

/-- `get_global_evaluation_scores_bounds` (source lines 193-219): validate the
name, build the query (for any `evaluation_ids`, including the empty list),
execute it, and return `rows[0].clone()` (line 218). -/
def get_global_evaluation_scores_bounds (project_id : Uuid)
    (evaluation_ids : List Uuid) (name : String)
    (resp : BoundsQuery → Except String (List ComparedEvaluationScoresBounds)) :
    List BoundsQuery × BoundsResult :=
  match validate_string_against_injection name with
  | .error e => ([], .invalidInput e)
  | .ok () =>
    let query : BoundsQuery := ⟨project_id, evaluation_ids, name⟩
    match resp query with
    | .error e => ([query], .queryError e)
    | .ok rows =>
      match rows with
      | [] => ([query], .panic)
      | r :: _ => ([query], .ok r)

/-! ### Helper lemmas -/

theorem zip_truncate {α β : Type} : ∀ (l₁ : List α) (l₂ : List β),
    l₁.zip l₂ = (l₁.take l₂.length).zip (l₂.take l₁.length)
  | [], l₂ => by simp
  | a :: t, [] => by simp
  | a :: t, b :: s => by
    simp only [List.zip_cons_cons, List.length_cons, List.take_succ_cons]
    rw [← zip_truncate t s]

/-- Number of output elements contributed by the first `i` blocks of
`l.flatMap f`. -/
def blockOffset {α β : Type} (f : α → List β) (l : List α) (i : Nat) : Nat :=
  (((l.take i).map f).map List.length).sum

theorem blockOffset_succ {α β : Type} (f : α → List β) (l : List α) (i : Nat) (a : α)
    (h : l[i]? = some a) : blockOffset f l (i + 1) = blockOffset f l i + (f a).length := by
  unfold blockOffset
  rw [List.take_succ, h]
  simp

theorem blockOffset_le_succ {α β : Type} (f : α → List β) (l : List α) (i : Nat) :
    blockOffset f l i ≤ blockOffset f l (i + 1) := by
  unfold blockOffset
  rw [List.take_succ]
  simp

theorem blockOffset_mono {α β : Type} (f : α → List β) (l : List α) {i j : Nat}
    (h : i ≤ j) : blockOffset f l i ≤ blockOffset f l j := by
  induction j with
  | zero => simp only [Nat.le_zero] at h; simp [h]
  | succ j ih =>
    rcases Nat.lt_or_ge i (j + 1) with hlt | hge
    · exact le_trans (ih (Nat.lt_succ_iff.mp hlt)) (blockOffset_le_succ f l j)
    · have hij : i = j + 1 := le_antisymm h hge
      simp [hij]

theorem blockOffset_cons {α β : Type} (f : α → List β) (x : α) (t : List α) (i : Nat) :
    blockOffset f (x :: t) (i + 1) = (f x).length + blockOffset f t i := by
  unfold blockOffset
  simp [List.take_succ_cons]

theorem flatMap_getElem?_block {α β : Type} (f : α → List β) :
    ∀ (l : List α) (i : Nat) (a : α), l[i]? = some a →
      ∀ p, p < (f a).length → (l.flatMap f)[blockOffset f l i + p]? = (f a)[p]?
  | [], i, a, h, p, hp => by simp at h
  | x :: t, 0, a, h, p, hp => by
    simp only [List.getElem?_cons_zero, Option.some.injEq] at h
    subst h
    have h0 : blockOffset f (x :: t) 0 = 0 := rfl
    rw [h0, Nat.zero_add, List.flatMap_cons, List.getElem?_append_left hp]
  | x :: t, i + 1, a, h, p, hp => by
    simp only [List.getElem?_cons_succ] at h
    rw [blockOffset_cons, List.flatMap_cons, Nat.add_assoc,
      List.getElem?_append_right (Nat.le_add_right _ _), Nat.add_sub_cancel_left]
    exact flatMap_getElem?_block f t i a h p hp

theorem writeLoop_all_ok (writeR : Nat → Except String Unit) :
    ∀ (rows : List EvaluationScore) (k : Nat),
      (∀ j, j < rows.length → writeR (k + j) = .ok ()) →
      writeLoop rows writeR k = (rows.map WriteEffect.writeRow, none)
  | [], k, _ => rfl
  | r :: rest, k, h => by
    have h0 : writeR k = .ok () := by simpa using h 0 (by simp)
    have ih := writeLoop_all_ok writeR rest (k + 1) (fun j hj => by
      have := h (j + 1) (by simpa using Nat.succ_lt_succ hj)
      rwa [show k + (j + 1) = k + 1 + j by omega] at this)
    simp [writeLoop, h0, ih]

theorem writeLoop_first_error (writeR : Nat → Except String Unit) (e : String) :
    ∀ (rows : List EvaluationScore) (k i : Nat), i < rows.length →
      writeR (k + i) = .error e → (∀ j, j < i → writeR (k + j) = .ok ()) →
      writeLoop rows writeR k = ((rows.take (i + 1)).map WriteEffect.writeRow, some e)
  | [], k, i, hi, _, _ => by simp at hi
  | r :: rest, k, 0, hi, he, hok => by
    have h0 : writeR k = .error e := by simpa using he
    simp [writeLoop, h0]
  | r :: rest, k, i + 1, hi, he, hok => by
    have h0 : writeR k = .ok () := by simpa using hok 0 (Nat.succ_pos i)
    have ih := writeLoop_first_error writeR e rest (k + 1) i (by simpa using hi)
      (by rwa [show k + 1 + i = k + (i + 1) by omega])
      (fun j hj => by
        have := hok (j + 1) (Nat.succ_lt_succ hj)
        rwa [show k + (j + 1) = k + 1 + j by omega] at this)
    simp [writeLoop, h0, ih]

/-- The query that `get_evaluation_score_buckets_based_on_bounds` builds when
the name passes validation (source lines 145-181). -/
def builtHistogramQuery (project_id evaluation_id : Uuid) (name : String)
    (lower_bound upper_bound : Value) (bucket_count : Nat) : HistogramQuery :=
  { interval_nums := (List.range bucket_count).map (fun k => k + 1)
    lower_bound := lower_bound
    step_size := (upper_bound - lower_bound) / (bucket_count : Value)
    upper_bound := upper_bound
    bucket_count := bucket_count
    project_id := project_id
    evaluation_id := evaluation_id
    name := name }

theorem histogram_issues_built_query (project_id evaluation_id : Uuid)
    (name : String) (lower_bound upper_bound : Value) (bucket_count : Nat)
    (resp : HistogramQuery → Except String (List EvaluationScoreBucket))
    (h : validate_string_against_injection name = .ok ()) :
    get_evaluation_score_buckets_based_on_bounds project_id evaluation_id name
        lower_bound upper_bound bucket_count resp
      = ([builtHistogramQuery project_id evaluation_id name lower_bound upper_bound bucket_count],
          match resp (builtHistogramQuery project_id evaluation_id name lower_bound upper_bound bucket_count) with
          | .error e => HistResult.queryError e
          | .ok rows => HistResult.ok rows) := by
  unfold get_evaluation_score_buckets_based_on_bounds
  rw [h]
  cases hres : resp (builtHistogramQuery project_id evaluation_id name lower_bound
      upper_bound bucket_count) <;>
    simp [builtHistogramQuery, hres] <;>
    simp [builtHistogramQuery] at hres <;>
    simp [hres]

/-! ### Claim theorems -/

/-- C7: for the empty input sequence, `insert_evaluation_scores` returns
success immediately and issues no store effect at all — no write scope is
opened, no row write and no finalize call happens. -/
theorem insert_empty_returns_ok_without_store_contact (openR : Except String Unit)
    (writeR : Nat → Except String Unit) (endR : Except String Unit) :
    insert_evaluation_scores [] openR writeR endR = ([], .ok ()) := rfl

/-- C9: for non-empty input, an open failure yields the wrapped open error
with no row written; if the first failing row write is at index `i`, exactly
the rows up to and including `i` are written, in input order, the call
returns that write error, and no finalize call is issued; on an end/commit
failure after all rows were written in order, the wrapped end error is
returned; and the open-scope error is always distinct from the
finalize/commit error. -/
theorem insert_writes_in_order_fails_fast_distinguishes_errors
    (scores : List EvaluationScore) (openR : Except String Unit)
    (writeR : Nat → Except String Unit) (endR : Except String Unit)
    (hne : scores ≠ []) :
    (∀ e, openR = .error e →
      insert_evaluation_scores scores openR writeR endR
        = ([.openScope],
            .error (.openFailed ("Failed to insert evaluation scores into Clickhouse: " ++ e))))
    ∧ (∀ i e, openR = .ok () → i < scores.length → writeR i = .error e →
        (∀ j, j < i → writeR j = .ok ()) →
        insert_evaluation_scores scores openR writeR endR
          = (.openScope :: (scores.take (i + 1)).map WriteEffect.writeRow,
              .error (.writeFailed e)))
    ∧ (∀ e, openR = .ok () → (∀ j, j < scores.length → writeR j = .ok ()) →
        endR = .error e →
        insert_evaluation_scores scores openR writeR endR
          = ((.openScope :: scores.map WriteEffect.writeRow) ++ [.finalize],
              .error (.endFailed ("Clickhouse evaluation scores insertion failed: " ++ e))))
    ∧ (openR = .ok () → (∀ j, j < scores.length → writeR j = .ok ()) → endR = .ok () →
        insert_evaluation_scores scores openR writeR endR
          = ((.openScope :: scores.map WriteEffect.writeRow) ++ [.finalize], .ok ()))
    ∧ (∀ m m', InsertError.openFailed m ≠ InsertError.endFailed m') := by
  have hemp : scores.isEmpty = false := by
    cases scores with
    | nil => exact absurd rfl hne
    | cons a t => rfl
  refine ⟨?_, ?_, ?_, ?_, ?_⟩
  · intro e he
    simp [insert_evaluation_scores, hemp, he]
  · intro i e hop hi he hok
    have hw := writeLoop_first_error writeR e scores 0 i hi (by simpa using he)
      (fun j hj => by simpa using hok j hj)
    simp [insert_evaluation_scores, hemp, hop, hw]
  · intro e hop hok hend
    have hw := writeLoop_all_ok writeR scores 0 (fun j hj => by simpa using hok j hj)
    simp [insert_evaluation_scores, hemp, hop, hw, hend]
  · intro hop hok hend
    have hw := writeLoop_all_ok writeR scores 0 (fun j hj => by simpa using hok j hj)
    simp [insert_evaluation_scores, hemp, hop, hw, hend]
  · intro m m' hcontra
    cases hcontra

/-- Concrete rows used by witness theorems. -/
def sampleScore1 : EvaluationScore :=
  { project_id := 1, group_id := "g", evaluation_id := 2, result_id := 3,
    name := "accuracy", value := 1, timestamp := 0 }

/-- Second concrete row used by witness theorems. -/
def sampleScore2 : EvaluationScore :=
  { project_id := 1, group_id := "g", evaluation_id := 2, result_id := 4,
    name := "accuracy", value := (1 : Value) / 2, timestamp := 0 }

/-- Witness for C9: with two rows and a store whose second row write fails,
the call writes rows 0 and 1 in order, stops, and reports the write error. -/
theorem insert_writes_in_order_fails_fast_distinguishes_errors_witness :
    ([sampleScore1, sampleScore2] ≠ ([] : List EvaluationScore))
    ∧ insert_evaluation_scores [sampleScore1, sampleScore2] (.ok ())
        (fun k => if k = 1 then .error "socket closed" else .ok ()) (.ok ())
      = (.openScope :: ([sampleScore1, sampleScore2].take 2).map WriteEffect.writeRow,
          .error (.writeFailed "socket closed")) :=
  ⟨by simp,
    (insert_writes_in_order_fails_fast_distinguishes_errors
        [sampleScore1, sampleScore2] (.ok ())
        (fun k => if k = 1 then .error "socket closed" else .ok ()) (.ok ())
        (by simp)).2.1 1 "socket closed" rfl (by simp) (by simp)
      (by
        intro j hj
        have hj0 : j = 0 := by omega
        subst hj0
        rfl)⟩

/-- C1 exhibit: `get_average_evaluation_score` on a store lookup that matches
zero rows (empty result set) issues its query and then performs the
unconditional `rows[0]` read of source line 124, which panics; the function's
result type has no no-data outcome at all, so no `NoData` is ever returned. -/
theorem average_query_zero_rows_hits_unchecked_first_row_read :
    get_average_evaluation_score 1 2 "accuracy" (fun _ => .ok [])
      = ([{ project_id := 1, evaluation_id := 2, name := "accuracy" }], .panic) := rfl

/-- C3 exhibit: `get_global_evaluation_scores_bounds` called with an empty
`evaluation_ids` set still builds and issues its query (there is no
empty-set check before the query at source lines 199-217), and on an empty
result set it performs the unconditional `rows[0]` read of source line 218,
which panics; the result type has no no-data outcome. -/
theorem bounds_query_empty_ids_issues_query_and_hits_unchecked_read :
    get_global_evaluation_scores_bounds 1 [] "accuracy" (fun _ => .ok [])
      = ([{ project_id := 1, evaluation_ids := [], name := "accuracy" }], .panic) := rfl

/-- C8: in each of the three query builders the caller-supplied metric name
goes through the injection guard before the query text is built; when
validation fails, each operation returns the validation error and the list of
queries issued to the store is empty. -/
theorem injection_guard_gates_all_three_queries (name e : String)
    (h : validate_string_against_injection name = .error e) :
    ∀ (project_id evaluation_id : Uuid) (evaluation_ids : List Uuid)
      (lower_bound upper_bound : Value) (bucket_count : Nat)
      (respA : AvgQuery → Except String (List AverageEvaluationScore))
      (respH : HistogramQuery → Except String (List EvaluationScoreBucket))
      (respB : BoundsQuery → Except String (List ComparedEvaluationScoresBounds)),
      get_average_evaluation_score project_id evaluation_id name respA
          = ([], .invalidInput e)
      ∧ get_evaluation_score_buckets_based_on_bounds project_id evaluation_id name
          lower_bound upper_bound bucket_count respH = ([], .invalidInput e)
      ∧ get_global_evaluation_scores_bounds project_id evaluation_ids name respB
          = ([], .invalidInput e) := by
  intro project_id evaluation_id evaluation_ids lower_bound upper_bound bucket_count respA respH respB
  refine ⟨?_, ?_, ?_⟩
  · simp [get_average_evaluation_score, h]
  · simp [get_evaluation_score_buckets_based_on_bounds, h]
  · simp [get_global_evaluation_scores_bounds, h]

/-- Witness for C8: the name containing a statement separator fails the guard
and all three operations reject it while issuing no query. -/
theorem injection_guard_gates_all_three_queries_witness :
    validate_string_against_injection "accuracy; DROP TABLE" = .error "potential SQL injection"
    ∧ get_average_evaluation_score 1 2 "accuracy; DROP TABLE" (fun _ => .ok [])
        = ([], .invalidInput "potential SQL injection")
    ∧ get_evaluation_score_buckets_based_on_bounds 1 2 "accuracy; DROP TABLE" 0 10 5
        (fun _ => .ok []) = ([], .invalidInput "potential SQL injection")
    ∧ get_global_evaluation_scores_bounds 1 [2, 3] "accuracy; DROP TABLE"
        (fun _ => .ok []) = ([], .invalidInput "potential SQL injection") :=
  ⟨rfl,
    injection_guard_gates_all_three_queries "accuracy; DROP TABLE"
      "potential SQL injection" rfl 1 2 [2, 3] 0 10 5
      (fun _ => .ok []) (fun _ => .ok []) (fun _ => .ok [])⟩

/-- C2 counterexample: with `bucket_count = 0` (and, in the second half, with
`upper_bound = lower_bound`) and a name that passes the guard, the histogram
operation does not fail with an invalid-input error — it builds and issues
its query (the issued-query list has length 1) and returns the store's
answer, so the precondition check claimed by the spec does not exist. -/
theorem histogram_missing_precondition_check_counterexample :
    ((get_evaluation_score_buckets_based_on_bounds 1 2 "accuracy" 0 10 0
        (fun _ => .ok [])).2 = HistResult.ok []
      ∧ ((get_evaluation_score_buckets_based_on_bounds 1 2 "accuracy" 0 10 0
        (fun _ => .ok [])).1).length = 1)
    ∧ ((get_evaluation_score_buckets_based_on_bounds 1 2 "accuracy" 5 5 3
        (fun _ => .ok [])).2 = HistResult.ok []
      ∧ ((get_evaluation_score_buckets_based_on_bounds 1 2 "accuracy" 5 5 3
        (fun _ => .ok [])).1).length = 1) :=
  ⟨⟨rfl, rfl⟩, ⟨rfl, rfl⟩⟩

/-- C2 amended: the histogram operation performs no validation of
`bucket_count` or of the bounds.  Whenever the name passes the injection
guard, exactly one query is issued — for every `bucket_count` (including 0)
and every pair of bounds (including `upper_bound ≤ lower_bound`) — with
`step_size = (upper_bound - lower_bound) / bucket_count` and one generated
interval per bucket, and the result is never an invalid-input error. -/
theorem histogram_has_no_numeric_precondition_check (project_id evaluation_id : Uuid)
    (name : String) (lower_bound upper_bound : Value) (bucket_count : Nat)
    (resp : HistogramQuery → Except String (List EvaluationScoreBucket))
    (h : validate_string_against_injection name = .ok ()) :
    ((get_evaluation_score_buckets_based_on_bounds project_id evaluation_id name
          lower_bound upper_bound bucket_count resp).1
        = [builtHistogramQuery project_id evaluation_id name lower_bound upper_bound bucket_count])
    ∧ (builtHistogramQuery project_id evaluation_id name lower_bound upper_bound
        bucket_count).interval_nums.length = bucket_count
    ∧ (builtHistogramQuery project_id evaluation_id name lower_bound upper_bound
        bucket_count).step_size = (upper_bound - lower_bound) / (bucket_count : Value)
    ∧ ∀ e, (get_evaluation_score_buckets_based_on_bounds project_id evaluation_id name
        lower_bound upper_bound bucket_count resp).2 ≠ HistResult.invalidInput e := by
  rw [histogram_issues_built_query project_id evaluation_id name lower_bound upper_bound
    bucket_count resp h]
  refine ⟨rfl, by simp [builtHistogramQuery], rfl, ?_⟩
  intro e
  cases resp (builtHistogramQuery project_id evaluation_id name lower_bound upper_bound
    bucket_count) <;> simp

/-- Witness for C2 amended: at `bucket_count = 0` and equal bounds the
operation still issues its single query and cannot return invalid input. -/
theorem histogram_has_no_numeric_precondition_check_witness :
    validate_string_against_injection "accuracy" = .ok ()
    ∧ ((get_evaluation_score_buckets_based_on_bounds 1 2 "accuracy" 5 5 0
          (fun _ => .ok [])).1 = [builtHistogramQuery 1 2 "accuracy" 5 5 0])
    ∧ (builtHistogramQuery 1 2 "accuracy" 5 5 0).interval_nums.length = 0
    ∧ (builtHistogramQuery 1 2 "accuracy" 5 5 0).step_size = (5 - 5) / ((0 : Nat) : Value)
    ∧ ∀ e, (get_evaluation_score_buckets_based_on_bounds 1 2 "accuracy" 5 5 0
        (fun _ => .ok [])).2 ≠ HistResult.invalidInput e :=
  ⟨rfl, histogram_has_no_numeric_precondition_check 1 2 "accuracy" 5 5 0
    (fun _ => .ok []) rfl⟩

/-- C4: for a histogram call with `bucket_count ≥ 1` and
`upper_bound > lower_bound` whose name passes the guard, the issued query
gives 1-indexed bucket `i` the edges `lower_bound + (i-1)*step` and
`lower_bound + i*step` with `step = (upper_bound - lower_bound) /
bucket_count`, and its counting condition is half-open `[lower, upper)` for
every `i < bucket_count`, while the final bucket's upper edge is exactly the
requested `upper_bound` and its counting condition is closed on both ends. -/
theorem histogram_bucket_interval_semantics (project_id evaluation_id : Uuid)
    (name : String) (lower_bound upper_bound : Value) (bucket_count : Nat)
    (resp : HistogramQuery → Except String (List EvaluationScoreBucket))
    (h : validate_string_against_injection name = .ok ())
    (hn : 1 ≤ bucket_count) (hb : lower_bound < upper_bound) :
    ∃ q : HistogramQuery,
      (get_evaluation_score_buckets_based_on_bounds project_id evaluation_id name
          lower_bound upper_bound bucket_count resp).1 = [q]
      ∧ q.step_size = (upper_bound - lower_bound) / (bucket_count : Value)
      ∧ (∀ i, 1 ≤ i → i < bucket_count →
          intervalLowerBound q i = lower_bound + ((i : Value) - 1) * q.step_size
          ∧ intervalUpperBound q i = lower_bound + (i : Value) * q.step_size
          ∧ ∀ v : Value, histogramCaseCounts q i v ↔
              (lower_bound + ((i : Value) - 1) * q.step_size ≤ v
                ∧ v < lower_bound + (i : Value) * q.step_size))
      ∧ intervalLowerBound q bucket_count
          = lower_bound + ((bucket_count : Value) - 1) * q.step_size
      ∧ intervalUpperBound q bucket_count = upper_bound
      ∧ (∀ v : Value, histogramCaseCounts q bucket_count v ↔
          (lower_bound + ((bucket_count : Value) - 1) * q.step_size ≤ v
            ∧ v ≤ upper_bound)) := by
  refine ⟨builtHistogramQuery project_id evaluation_id name lower_bound upper_bound bucket_count,
    ?_, rfl, ?_, rfl, ?_, ?_⟩
  · rw [histogram_issues_built_query project_id evaluation_id name lower_bound upper_bound
      bucket_count resp h]
  · intro i h1 hi
    have hne : i ≠ bucket_count := Nat.ne_of_lt hi
    have hupper : intervalUpperBound
        (builtHistogramQuery project_id evaluation_id name lower_bound upper_bound bucket_count) i
        = lower_bound + (i : Value)
            * (builtHistogramQuery project_id evaluation_id name lower_bound upper_bound
                bucket_count).step_size := by
      simp [intervalUpperBound, builtHistogramQuery, hne]
    refine ⟨rfl, hupper, ?_⟩
    intro v
    unfold histogramCaseCounts
    constructor
    · rintro (⟨hl, hr⟩ | ⟨hcontra, -⟩)
      · rw [hupper] at hr
        exact ⟨hl, hr⟩
      · exact absurd hcontra hne
    · rintro ⟨hl, hr⟩
      exact Or.inl ⟨hl, by rwa [hupper]⟩
  · simp [intervalUpperBound, builtHistogramQuery]
  · intro v
    have hupper : intervalUpperBound
        (builtHistogramQuery project_id evaluation_id name lower_bound upper_bound bucket_count)
        bucket_count = upper_bound := by
      simp [intervalUpperBound, builtHistogramQuery]
    unfold histogramCaseCounts
    rw [hupper]
    constructor
    · rintro (⟨hl, hr⟩ | ⟨-, hl, hr⟩)
      · exact ⟨hl, le_of_lt hr⟩
      · exact ⟨hl, hr⟩
    · rintro ⟨hl, hr⟩
      exact Or.inr ⟨rfl, hl, hr⟩

/-- Witness for C4 at the spec's own example: five buckets over `[0, 10]`. -/
theorem histogram_bucket_interval_semantics_witness :
    validate_string_against_injection "accuracy" = .ok ()
    ∧ 1 ≤ 5
    ∧ (0 : Value) < 10
    ∧ ∃ q : HistogramQuery,
        (get_evaluation_score_buckets_based_on_bounds 1 2 "accuracy" 0 10 5
            (fun _ => .ok [])).1 = [q]
        ∧ q.step_size = (10 - 0) / ((5 : Nat) : Value)
        ∧ (∀ i, 1 ≤ i → i < 5 →
            intervalLowerBound q i = 0 + ((i : Value) - 1) * q.step_size
            ∧ intervalUpperBound q i = 0 + (i : Value) * q.step_size
            ∧ ∀ v : Value, histogramCaseCounts q i v ↔
                (0 + ((i : Value) - 1) * q.step_size ≤ v
                  ∧ v < 0 + (i : Value) * q.step_size))
        ∧ intervalLowerBound q 5 = 0 + (((5 : Nat) : Value) - 1) * q.step_size
        ∧ intervalUpperBound q 5 = 10
        ∧ (∀ v : Value, histogramCaseCounts q 5 v ↔
            (0 + (((5 : Nat) : Value) - 1) * q.step_size ≤ v ∧ v ≤ 10)) :=
  ⟨rfl, by decide, by decide,
    histogram_bucket_interval_semantics 1 2 "accuracy" 0 10 5 (fun _ => .ok [])
      rfl (by decide) (by decide)⟩

/-- A table holding one row that fails the histogram name filter; used by the
C5 counterexample. -/
def histogramCexTable : List EvaluationScore :=
  [{ project_id := 1, group_id := "g", evaluation_id := 2, result_id := 3,
     name := "other", value := 5, timestamp := 0 }]

/-- The C5 counterexample call: a successful histogram query for two buckets
against a store whose semantics are `runHistogramQuery` over a table in which
no row matches the filter. -/
def histogramCexCall : List HistogramQuery × HistResult :=
  get_evaluation_score_buckets_based_on_bounds 1 2 "accuracy" 0 10 2
    (fun q => .ok (runHistogramQuery q histogramCexTable))

/-- C5 counterexample: when zero table rows match the filter, the inner join
of the generated query produces no groups, so the successful call returns
zero buckets instead of the requested two — bucket presence is not
independent of data presence. -/
theorem histogram_bucket_presence_counterexample :
    histogramCexCall.2 = HistResult.ok []
    ∧ ¬ ∃ rows, histogramCexCall.2 = HistResult.ok rows ∧ rows.length = 2 := by
  constructor
  · rfl
  · rintro ⟨rows, h1, h2⟩
    have h0 : histogramCexCall.2 = HistResult.ok [] := rfl
    rw [h0] at h1
    injection h1 with h3
    rw [← h3] at h2
    simp at h2

/-- C5 amended: a successful histogram call issues its built query; when at
least one table row matches the filter the result has exactly `bucket_count`
buckets, listed in ascending bucket-index order, each present even when its
own conditional count is zero; when no table row matches the filter at all,
the result is empty (the interval generation feeds an inner join, so output
presence does depend on some row matching the filter). -/
theorem histogram_bucket_presence_amended (project_id evaluation_id : Uuid)
    (name : String) (lower_bound upper_bound : Value) (bucket_count : Nat)
    (table : List EvaluationScore)
    (h : validate_string_against_injection name = .ok ()) :
    ∃ q : HistogramQuery,
      get_evaluation_score_buckets_based_on_bounds project_id evaluation_id name
          lower_bound upper_bound bucket_count
          (fun qq => .ok (runHistogramQuery qq table))
        = ([q], HistResult.ok (runHistogramQuery q table))
      ∧ (table.filter (matchesHistogramFilter q) = [] → runHistogramQuery q table = [])
      ∧ (table.filter (matchesHistogramFilter q) ≠ [] →
          (runHistogramQuery q table).length = bucket_count
          ∧ ∀ k, k < bucket_count →
              (runHistogramQuery q table)[k]? = some
                { lower_bound := intervalLowerBound q (k + 1)
                  upper_bound := intervalUpperBound q (k + 1)
                  height := (table.filter (matchesHistogramFilter q)).countP
                      (fun r => decide (histogramCaseCounts q (k + 1) r.value)) }) := by
  refine ⟨builtHistogramQuery project_id evaluation_id name lower_bound upper_bound bucket_count,
    ?_, ?_, ?_⟩
  · rw [histogram_issues_built_query project_id evaluation_id name lower_bound upper_bound
      bucket_count (fun qq => .ok (runHistogramQuery qq table)) h]
  · intro hemp
    simp [runHistogramQuery, hemp]
  · intro hne
    have hfalse : (table.filter (matchesHistogramFilter
        (builtHistogramQuery project_id evaluation_id name lower_bound upper_bound
          bucket_count))).isEmpty = false := by
      rcases hcase : (table.filter (matchesHistogramFilter
          (builtHistogramQuery project_id evaluation_id name lower_bound upper_bound
            bucket_count))) with - | -
      · exact absurd hcase hne
      · rfl
    have hrun : runHistogramQuery
        (builtHistogramQuery project_id evaluation_id name lower_bound upper_bound bucket_count)
        table
      = ((List.range bucket_count).map (fun k => k + 1)).map (fun i =>
          { lower_bound := intervalLowerBound
              (builtHistogramQuery project_id evaluation_id name lower_bound upper_bound bucket_count) i
            upper_bound := intervalUpperBound
              (builtHistogramQuery project_id evaluation_id name lower_bound upper_bound bucket_count) i
            height := (table.filter (matchesHistogramFilter
                (builtHistogramQuery project_id evaluation_id name lower_bound upper_bound
                  bucket_count))).countP
              (fun r => decide (histogramCaseCounts
                (builtHistogramQuery project_id evaluation_id name lower_bound upper_bound
                  bucket_count) i r.value)) }) := by
      unfold runHistogramQuery
      rw [hfalse]
      simp only [Bool.false_eq_true, if_false]
      rfl
    constructor
    · rw [hrun]
      simp
    · intro k hk
      rw [hrun, List.getElem?_map, List.getElem?_map, List.getElem?_range hk]
      rfl

/-- Witness for C5 amended: two buckets over a table with one matching row;
both buckets are present, the second with height 0. -/
theorem histogram_bucket_presence_amended_witness :
    validate_string_against_injection "accuracy" = .ok ()
    ∧ ∃ q : HistogramQuery,
        get_evaluation_score_buckets_based_on_bounds 1 2 "accuracy" 0 10 2
            (fun qq => .ok (runHistogramQuery qq [sampleScore1]))
          = ([q], HistResult.ok (runHistogramQuery q [sampleScore1]))
        ∧ ([sampleScore1].filter (matchesHistogramFilter q) = [] →
            runHistogramQuery q [sampleScore1] = [])
        ∧ ([sampleScore1].filter (matchesHistogramFilter q) ≠ [] →
            (runHistogramQuery q [sampleScore1]).length = 2
            ∧ ∀ k, k < 2 →
                (runHistogramQuery q [sampleScore1])[k]? = some
                  { lower_bound := intervalLowerBound q (k + 1)
                    upper_bound := intervalUpperBound q (k + 1)
                    height := ([sampleScore1].filter (matchesHistogramFilter q)).countP
                        (fun r => decide (histogramCaseCounts q (k + 1) r.value)) }) :=
  ⟨rfl, histogram_bucket_presence_amended 1 2 "accuracy" 0 10 2 [sampleScore1] rfl⟩

/-- C6: the flattener processes exactly the positionally paired prefix of the
two inputs — extra elements of the longer input are silently dropped (the
output is unchanged when each input is truncated to the other's length); the
output length is the sum of the metric counts over the processed pairs; every
(metric-name, value) entry of a processed pair yields a row carrying that
pair's `result_id`, the entry's name and value, and the shared `project_id`,
`group_id`, `evaluation_id` and `timestamp`; and every output row arises this
way. -/
theorem flattener_row_correspondence (points : List EvaluationDatapointResult)
    (result_ids : List Uuid) (project_id : Uuid) (group_id : String)
    (evaluation_id : Uuid) (timestamp : Timestamp) :
    (from_evaluation_datapoint_results points result_ids project_id group_id
          evaluation_id timestamp).length
        = ((points.zip result_ids).map fun pr => pr.1.scores.length).sum
    ∧ from_evaluation_datapoint_results points result_ids project_id group_id
          evaluation_id timestamp
        = from_evaluation_datapoint_results (points.take result_ids.length)
            (result_ids.take points.length) project_id group_id evaluation_id timestamp
    ∧ (∀ (i : Nat) (point : EvaluationDatapointResult) (rid : Uuid),
        points[i]? = some point → result_ids[i]? = some rid →
        ∀ nv ∈ point.scores,
          ({ project_id := project_id, group_id := group_id,
             evaluation_id := evaluation_id, result_id := rid, name := nv.1,
             value := nv.2, timestamp := timestamp } : EvaluationScore)
            ∈ from_evaluation_datapoint_results points result_ids project_id group_id
                evaluation_id timestamp)
    ∧ (∀ s ∈ from_evaluation_datapoint_results points result_ids project_id group_id
          evaluation_id timestamp,
        ∃ (i : Nat) (point : EvaluationDatapointResult) (rid : Uuid),
          points[i]? = some point ∧ result_ids[i]? = some rid
          ∧ ∃ nv ∈ point.scores,
              s = { project_id := project_id, group_id := group_id,
                    evaluation_id := evaluation_id, result_id := rid, name := nv.1,
                    value := nv.2, timestamp := timestamp }) := by
  refine ⟨?_, ?_, ?_, ?_⟩
  · rw [from_results_eq_flatMap, List.length_flatMap]
    congr 1
    apply List.map_congr_left
    intro pr _
    simp [scoresOfPair]
  · rw [from_results_eq_flatMap, from_results_eq_flatMap, ← zip_truncate points result_ids]
  · intro i point rid hi hr nv hnv
    have hz : (points.zip result_ids)[i]? = some (point, rid) :=
      List.getElem?_zip_eq_some.mpr ⟨hi, hr⟩
    have hmem : (point, rid) ∈ points.zip result_ids := by
      have := List.mem_iff_getElem?.mpr ⟨i, hz⟩
      exact this
    rw [from_results_eq_flatMap]
    exact List.mem_flatMap.mpr ⟨(point, rid), hmem, List.mem_map.mpr ⟨nv, hnv, rfl⟩⟩
  · intro s hs
    rw [from_results_eq_flatMap] at hs
    obtain ⟨pr, hpr, hsin⟩ := List.mem_flatMap.mp hs
    obtain ⟨i, hi⟩ := List.mem_iff_getElem?.mp hpr
    obtain ⟨h1, h2⟩ := List.getElem?_zip_eq_some.mp hi
    obtain ⟨nv, hnv, hrow⟩ := List.mem_map.mp hsin
    exact ⟨i, pr.1, pr.2, h1, h2, nv, hnv, hrow.symm⟩

/-- Concrete datapoint results used by the flattener witnesses. -/
def samplePoint1 : EvaluationDatapointResult := { scores := [("accuracy", 1), ("recall", 2)] }

/-- Second concrete datapoint result used by the flattener witnesses. -/
def samplePoint2 : EvaluationDatapointResult := { scores := [("accuracy", 3)] }

/-- Witness for C6: the flattener output over two paired points (with an
unpaired third result id dropped) has length 3 = 2 + 1, and the row of the
second pair's entry is present with that pair's result id. -/
theorem flattener_row_correspondence_witness :
    (from_evaluation_datapoint_results [samplePoint1, samplePoint2] [10, 20, 30]
        7 "g" 8 0).length = 3
    ∧ ({ project_id := 7, group_id := "g", evaluation_id := 8, result_id := 20,
         name := "accuracy", value := 3, timestamp := 0 } : EvaluationScore)
        ∈ from_evaluation_datapoint_results [samplePoint1, samplePoint2] [10, 20, 30]
            7 "g" 8 0 :=
  ⟨((flattener_row_correspondence [samplePoint1, samplePoint2] [10, 20, 30]
      7 "g" 8 0).1).trans (by decide),
    (flattener_row_correspondence [samplePoint1, samplePoint2] [10, 20, 30]
      7 "g" 8 0).2.2.1 1 samplePoint2 20 rfl rfl ("accuracy", 3) (by decide)⟩

/-- C10: the flattener's output is the in-order concatenation of per-pair row
blocks: for pairs `i < j`, the whole of pair `i`'s block sits at offsets
`blockOffset .. i, ..., blockOffset .. i + |block i| - 1`, which all lie
strictly before `blockOffset .. j`, where pair `j`'s block sits — so every
row produced from pair `i` appears in the output before every row produced
from pair `j`. -/
theorem flattener_blocks_in_pair_order (points : List EvaluationDatapointResult)
    (result_ids : List Uuid) (project_id : Uuid) (group_id : String)
    (evaluation_id : Uuid) (timestamp : Timestamp) (i j : Nat)
    (pri prj : EvaluationDatapointResult × Uuid) (hij : i < j)
    (hi : (points.zip result_ids)[i]? = some pri)
    (hj : (points.zip result_ids)[j]? = some prj) :
    blockOffset (scoresOfPair project_id group_id evaluation_id timestamp)
          (points.zip result_ids) i
        + (scoresOfPair project_id group_id evaluation_id timestamp pri).length
      ≤ blockOffset (scoresOfPair project_id group_id evaluation_id timestamp)
          (points.zip result_ids) j
    ∧ (∀ p, p < (scoresOfPair project_id group_id evaluation_id timestamp pri).length →
        (from_evaluation_datapoint_results points result_ids project_id group_id
            evaluation_id timestamp)[blockOffset
              (scoresOfPair project_id group_id evaluation_id timestamp)
              (points.zip result_ids) i + p]?
          = (scoresOfPair project_id group_id evaluation_id timestamp pri)[p]?)
    ∧ (∀ p, p < (scoresOfPair project_id group_id evaluation_id timestamp prj).length →
        (from_evaluation_datapoint_results points result_ids project_id group_id
            evaluation_id timestamp)[blockOffset
              (scoresOfPair project_id group_id evaluation_id timestamp)
              (points.zip result_ids) j + p]?
          = (scoresOfPair project_id group_id evaluation_id timestamp prj)[p]?) := by
  refine ⟨?_, ?_, ?_⟩
  · rw [← blockOffset_succ (scoresOfPair project_id group_id evaluation_id timestamp)
      (points.zip result_ids) i pri hi]
    exact blockOffset_mono _ _ hij
  · intro p hp
    rw [from_results_eq_flatMap]
    exact flatMap_getElem?_block _ _ i pri hi p hp
  · intro p hp
    rw [from_results_eq_flatMap]
    exact flatMap_getElem?_block _ _ j prj hj p hp

/-- Witness for C10 on two concrete pairs: pair 0's block (two rows) ends at
offset 2, where pair 1's block begins. -/
theorem flattener_blocks_in_pair_order_witness :
    (0 : Nat) < 1
    ∧ ([samplePoint1, samplePoint2].zip [10, 20])[0]? = some (samplePoint1, 10)
    ∧ ([samplePoint1, samplePoint2].zip [10, 20])[1]? = some (samplePoint2, 20)
    ∧ (blockOffset (scoresOfPair 7 "g" 8 0) ([samplePoint1, samplePoint2].zip [10, 20]) 0
          + (scoresOfPair 7 "g" 8 0 (samplePoint1, 10)).length
        ≤ blockOffset (scoresOfPair 7 "g" 8 0) ([samplePoint1, samplePoint2].zip [10, 20]) 1
      ∧ (∀ p, p < (scoresOfPair 7 "g" 8 0 (samplePoint1, 10)).length →
          (from_evaluation_datapoint_results [samplePoint1, samplePoint2] [10, 20]
              7 "g" 8 0)[blockOffset (scoresOfPair 7 "g" 8 0)
                ([samplePoint1, samplePoint2].zip [10, 20]) 0 + p]?
            = (scoresOfPair 7 "g" 8 0 (samplePoint1, 10))[p]?)
      ∧ (∀ p, p < (scoresOfPair 7 "g" 8 0 (samplePoint2, 20)).length →
          (from_evaluation_datapoint_results [samplePoint1, samplePoint2] [10, 20]
              7 "g" 8 0)[blockOffset (scoresOfPair 7 "g" 8 0)
                ([samplePoint1, samplePoint2].zip [10, 20]) 1 + p]?
            = (scoresOfPair 7 "g" 8 0 (samplePoint2, 20))[p]?)) :=
  ⟨by decide, rfl, rfl,
    flattener_blocks_in_pair_order [samplePoint1, samplePoint2] [10, 20] 7 "g" 8 0
      0 1 (samplePoint1, 10) (samplePoint2, 20) (by decide) rfl rfl⟩

end EvalScores
